import Mathlib

/-!
# Verification of the letsencrypt relay plugin

A shallow embedding of the two plugin variants found in the repository:

* variant A, plugin `letsencrypt` (local filesystem backend): module
  globals `renewMutex`, `sslCert`, `sslKey`, files `ssl.key` / `ssl.cert`,
  functions `plugin`, `check`, `renew`, `generateCsr`;
* variant B, plugin `letsencrypt-ssl` (seed-addressed remote backend):
  functions `check`, `isSslValid`, `createOrRenewSSl`, `getSslFile`.

External collaborators (the `acme-client` library, `date-fns`, the
filesystem, the host API) are modelled as inputs: each renewal run takes an
environment record carrying the outcome of every external call (success
value or rejection), and the embedding threads the plugin's own state
through the sequence of statements exactly as the source orders them.
JavaScript exception semantics are kept: an `await` of a rejected promise
aborts the function at that statement, skipping everything after it.
-/

namespace LetsEncrypt

/-! ## String helpers

`String.prototype.toLowerCase()` and `String.prototype.includes(needle)`
as used in `certInfo?.issuer.commonName.toLowerCase().includes("staging")`
(lines 105 and 242 of the source). -/

/-- JS `includes` on lists of characters: `needle` occurs as a contiguous
substring of `hay`. -/
def listIncludes (needle : List Char) : List Char → Bool
  | [] => needle.isEmpty
  | c :: t => needle.isPrefixOf (c :: t) || listIncludes needle t

/-- JS `hay.includes(needle)` (substring test). -/
def strIncludes (hay needle : String) : Bool :=
  listIncludes needle.data hay.data

/-- JS `toLowerCase()` (the issuer names involved are ASCII), character by
character over the string's character list. -/
def strToLower (s : String) : String :=
  ⟨s.data.map Char.toLower⟩

/-! ## Certificate validity evaluator

The decision logic of `check` (variant A, lines 80-115) and `isSslValid`
(variant B, lines 215-258); the two are line-for-line identical on the
certificate fields.  `acme.forge.readCertificateInfo` and
`intervalToDuration` are external, so the evaluator's input is the record
of the fields the source reads from their results: `commonName`,
`issuer.commonName`, and the `months` / `days` fields of the
`date-fns` calendar duration from `new Date()` to `notAfter`. -/

/-- The certificate metadata fields consulted by the source, as produced
by the external parser and `intervalToDuration`. -/
structure CertInfo where
  commonName : String
  issuerCommonName : String
  /-- `duration.months` of `intervalToDuration({start: now, end: notAfter})`. -/
  durationMonths : Int
  /-- `duration.days` of the same duration. -/
  durationDays : Int
deriving DecidableEq, Repr

/-- Line 93 / 230: `daysLeft = duration.months * 30 + duration.days`. -/
def daysLeft (info : CertInfo) : Int :=
  info.durationMonths * 30 + info.durationDays

/-- Lines 95-97 / 232-234: `dateValid` is set exactly when `daysLeft > 30`. -/
def dateValid (info : CertInfo) : Bool :=
  daysLeft info > 30

/-- Line 99 / 236: the certificate's common name equals the configured domain. -/
def domainMatches (info : CertInfo) (configDomain : String) : Bool :=
  info.commonName == configDomain

/-- Line 105 / 242: the issuer common name contains `"staging"`
case-insensitively, marking a staging-issued certificate. -/
def certIsStaging (info : CertInfo) : Bool :=
  strIncludes (strToLower info.issuerCommonName) "staging"

/-- Lines 103-108 / 240-245: the configured staging flag agrees with the
certificate's detected environment. -/
def envMatches (info : CertInfo) (stagingConfig : Bool) : Bool :=
  stagingConfig == certIsStaging info

/-- Net value of the source's `domainValid` flag: set at line 99 / 236 when
the common name matches, cleared again at lines 103-108 / 240-245 when the
environment mismatches. -/
def domainValid (info : CertInfo) (configDomain : String) (stagingConfig : Bool) : Bool :=
  domainMatches info configDomain && envMatches info stagingConfig

/-- Reasons of the spec's renewal taxonomy. The source itself returns no
reason (it just renews); the labels below name which branch of the source's
condition failed, in the spec's precedence order (missing, then expiring,
then environment overriding domain). -/
inductive RenewReason where
  | missing
  | expiring
  | domainMismatch
  | environmentMismatch
deriving DecidableEq, Repr

/-- Outcome of the validity evaluation. -/
inductive SslDecision where
  | valid
  | mustRenew (reason : RenewReason)
deriving DecidableEq, Repr

/-- The evaluator: absent material renews (line 81-83: `!sslCert || !sslKey`;
line 224/252: `if (!sslData)`); present material is valid exactly when
`dateValid && domainValid` (line 110 / 247).  The attached reason labels the
first failing check in the spec's order. -/
def evaluate (material : Option CertInfo) (configDomain : String)
    (stagingConfig : Bool) : SslDecision :=
  match material with
  | none => .mustRenew .missing
  | some info =>
    if dateValid info && domainValid info configDomain stagingConfig then
      .valid
    else if !dateValid info then
      .mustRenew .expiring
    else if !envMatches info stagingConfig then
      .mustRenew .environmentMismatch
    else
      .mustRenew .domainMismatch

/-! ### Evaluator facts (claims C5 and C6) -/

/-- C5: with certificate metadata present, the evaluator computes the days
remaining as whole months times 30 plus remaining days of the calendar
duration, reports `MustRenew(expiring)` exactly when that value is at most
30, and passes the date check exactly when it exceeds 30. -/
theorem evaluate_expiring_iff_daysLeft_le_30 (info : CertInfo)
    (configDomain : String) (stagingConfig : Bool) :
    daysLeft info = info.durationMonths * 30 + info.durationDays ∧
    (evaluate (some info) configDomain stagingConfig =
        .mustRenew .expiring ↔ daysLeft info ≤ 30) ∧
    (dateValid info = true ↔ daysLeft info > 30) := by
  refine ⟨rfl, ?_, ?_⟩
  · constructor
    · intro h
      by_contra hgt
      push_neg at hgt
      have hd : dateValid info = true := by
        simp [dateValid]; omega
      simp only [evaluate, hd] at h
      rcases hdm : domainValid info configDomain stagingConfig with _ | _ <;>
        simp [hdm] at h
      rcases he : envMatches info stagingConfig with _ | _ <;>
        simp [he] at h
    · intro h
      have hd : dateValid info = false := by
        simp [dateValid]; omega
      simp [evaluate, hd]
  · simp [dateValid]

/-- C6: whenever the certificate's detected environment (issuer common
name containing "staging" case-insensitively) differs from the configured
environment — a staging certificate under production configuration or a
production certificate under staging configuration — the evaluator judges
`MustRenew(environment-mismatch)`, even when the certificate's common name
equals the desired domain and the date check passes: the environment check
overrides the domain-valid result. -/
theorem evaluate_env_mismatch_overrides (info : CertInfo)
    (configDomain : String) (stagingConfig : Bool)
    (_hcn : info.commonName = configDomain)
    (hmis : stagingConfig ≠ certIsStaging info)
    (hdate : dateValid info = true) :
    evaluate (some info) configDomain stagingConfig =
      .mustRenew .environmentMismatch := by
  have henv : envMatches info stagingConfig = false := by
    simp only [envMatches, beq_eq_false_iff_ne, ne_eq]
    exact hmis
  have hdv : domainValid info configDomain stagingConfig = false := by
    simp [domainValid, henv]
  simp [evaluate, hdate, hdv, henv]

/-- Witness for C6, one concrete evaluation per mismatch direction: a
staging-issued certificate under production configuration, and a
production-issued certificate under staging configuration, both with
matching domain and 90 days left. -/
theorem evaluate_env_mismatch_overrides_witness :
    evaluate (some ⟨"relay.example.com", "(STAGING) Pretend Pear X1", 3, 0⟩)
        "relay.example.com" false = .mustRenew .environmentMismatch ∧
    evaluate (some ⟨"relay.example.com", "R3 Production CA", 3, 0⟩)
        "relay.example.com" true = .mustRenew .environmentMismatch :=
  ⟨evaluate_env_mismatch_overrides
      ⟨"relay.example.com", "(STAGING) Pretend Pear X1", 3, 0⟩
      "relay.example.com" false rfl (by decide) (by decide),
    evaluate_env_mismatch_overrides
      ⟨"relay.example.com", "R3 Production CA", 3, 0⟩
      "relay.example.com" true rfl (by decide) (by decide)⟩

/-! ## Variant A: plugin `letsencrypt` (local filesystem backend)

Lines 1-169 of the source. The module-level mutable bindings
(`renewMutex`, `sslCert`, `sslKey`, `sslCsr`, `client`, `acmeChallenges`),
the two files `ssl.key` / `ssl.cert` under the configuration directory,
and the host's active TLS slot (`api.ssl.cert`, `api.ssl.privateKey`) form
the state. Renewal is a sequence of event-loop turns: each `await` is an
observation point at which other code (the challenge HTTP handler, a
reader of `api.ssl`) may run, while consecutive synchronous statements run
without interleaving. -/

/-- The host's active TLS slot: `api.ssl.cert` (a split PEM chain) and
`api.ssl.privateKey`. -/
structure SslSlot where
  cert : Option (List String)
  privateKey : Option String
deriving DecidableEq, Repr

/-- The mutable state of variant A. -/
structure StateA where
  /-- `renewMutex` (line 13) is currently held. -/
  mutexHeld : Bool
  /-- `api.ssl`: the host's active TLS slot. -/
  ssl : SslSlot
  /-- module binding `sslCert` (line 17). -/
  sslCertVar : Option String
  /-- module binding `sslKey` (line 18). -/
  sslKeyVar : Option String
  /-- module binding `sslCsr` (line 19). -/
  sslCsrVar : Option String
  /-- content of the file at `sslKeyPath` (`ssl.key`). -/
  keyFile : Option String
  /-- content of the file at `sslCertPath` (`ssl.cert`). -/
  certFile : Option String
  /-- the `acmeChallenges` map (line 22), token to key authorization. -/
  challenges : List (String × String)
  /-- account key of the module-level `client` (lines 20, 50-55). -/
  clientAccountKey : Option String
deriving DecidableEq, Repr

/-- The state a fresh process starts from. -/
def initStateA : StateA :=
  { mutexHeld := false, ssl := ⟨none, none⟩, sslCertVar := none,
    sslKeyVar := none, sslCsrVar := none, keyFile := none, certFile := none,
    challenges := [], clientAccountKey := none }

/-- `acmeChallenges.set(token, keyAuthorization)` (line 125). -/
def challengesSet (m : List (String × String)) (token keyAuth : String) :
    List (String × String) :=
  if m.any (fun p => p.1 == token) then
    m.map (fun p => if p.1 == token then (token, keyAuth) else p)
  else
    m ++ [(token, keyAuth)]

/-- `acmeChallenges.delete(token)` (line 133). -/
def challengesDelete (m : List (String × String)) (token : String) :
    List (String × String) :=
  m.filter (fun p => p.1 != token)

/-- Events of a renewal run, used to state ordering properties. -/
inductive AcmeEvent where
  /-- variant A, line 118: `renewMutex.acquire()` returned. -/
  | acquireGuard
  /-- variant A, lines 153-158: `acme.crypto.createCsr` resolved and the
  `sslKey` / `sslCsr` module bindings were assigned. -/
  | generateKeyCsr
  /-- variant A, line 160: the write of the private key to `ssl.key`
  completed. -/
  | persistPrivateKey
  /-- `client.auto` was invoked: the ACME order flow has started
  (variant A line 119, variant B line 299). -/
  | contactCA
  /-- the ACME client called `challengeCreateFn`. -/
  | registerChallenge
  /-- the ACME client called `challengeRemoveFn`. -/
  | unregisterChallenge
  /-- variant A, line 140: the write of the certificate to `ssl.cert`
  completed. -/
  | persistCertificate
  /-- variant A, lines 142-146: `api.ssl.cert` / `api.ssl.privateKey`
  replaced. -/
  | installActiveTls
  /-- variant A, line 148: `renewMutex.release()`. -/
  | releaseGuard
  /-- variant B, lines 279-283: the fresh account key was written with
  `createIndependentFileSmall`. -/
  | persistAccountKey
  /-- variant B, line 323: `api.ssl.set(cert, certificateKey)`. -/
  | setActiveTls
  /-- variant B, line 324: `api.ssl.save()` completed. -/
  | saveActiveTls
  /-- variant B, line 320: `process.exit(1)`. -/
  | exitProcess
deriving DecidableEq, Repr

/-- Outcomes of the external calls a variant A renewal awaits. `none` on an
`Option` field models the corresponding promise rejecting. -/
structure EnvA where
  /-- `acme.crypto.splitPemChain`, an external pure library function. -/
  splitPemChain : String → List String
  /-- result of `acme.crypto.createCsr` (line 153): private key and CSR. -/
  createCsrResult : Option (String × String)
  /-- the write of `ssl.key` (line 160) succeeds. -/
  writeKeyOk : Bool
  /-- the token / key-authorization pair the ACME client presents to the
  challenge callbacks during `auto`, if the flow reaches a challenge. -/
  challenge : Option (String × String)
  /-- result of `client.auto` (lines 119-138): the certificate PEM chain. -/
  autoResult : Option String
  /-- the write of `ssl.cert` (line 140) succeeds. -/
  writeCertOk : Bool

/-- `generateCsr` (lines 151-163): create the key and CSR, assign the
`sslKey` / `sslCsr` module bindings, write the key file, return the CSR.
Result: outcome, final state, and the trace of events with the state after
each. A rejection (of `createCsr` or of the file write) aborts the
function, keeping every assignment already made. -/
def generateCsr (env : EnvA) (s : StateA) :
    Except Unit String × StateA × List (AcmeEvent × StateA) :=
  match env.createCsrResult with
  | none => (.error (), s, [])
  | some (key, csr) =>
    let s1 := { s with sslKeyVar := some key, sslCsrVar := some csr }
    if env.writeKeyOk then
      let s2 := { s1 with keyFile := some key }
      (.ok csr, s2, [(.generateKeyCsr, s1), (.persistPrivateKey, s2)])
    else
      (.error (), s1, [(.generateKeyCsr, s1)])

/-- The `client.auto` call (lines 119-138): the external order flow touches
plugin state only through the two challenge callbacks, which set and then
delete the token in `acmeChallenges` (lines 120-135); the flow then either
resolves with the certificate PEM or rejects. -/
def clientAuto (env : EnvA) (s : StateA) :
    Except Unit String × StateA × List (AcmeEvent × StateA) :=
  let start := [(AcmeEvent.contactCA, s)]
  match env.challenge with
  | none =>
    match env.autoResult with
    | none => (.error (), s, start)
    | some cert => (.ok cert, s, start)
  | some (token, keyAuth) =>
    let sReg := { s with challenges := challengesSet s.challenges token keyAuth }
    let sUnreg := { sReg with challenges := challengesDelete sReg.challenges token }
    let tr := start ++ [(.registerChallenge, sReg), (.unregisterChallenge, sUnreg)]
    match env.autoResult with
    | none => (.error (), sUnreg, tr)
    | some cert => (.ok cert, sUnreg, tr)

/-- `renew` (lines 117-149), statement by statement:
acquire the mutex (118), build the options — which awaits
`generateCsr` (136) — run `client.auto` (119-138), write the certificate
file (140), then in one synchronous block replace `api.ssl.cert` and
`api.ssl.privateKey` (142-146) and release the mutex (148). A rejection at
any `await` propagates out of `renew` at that point; the source has no
`try`/`finally`, so nothing after the failed statement runs. -/
def renewASteps (env : EnvA) (s : StateA) :
    Except Unit Unit × StateA × List (AcmeEvent × StateA) :=
  let s1 := { s with mutexHeld := true }
  let acq := [(AcmeEvent.acquireGuard, s1)]
  match generateCsr env s1 with
  | (.error _, sE, tr) => (.error (), sE, acq ++ tr)
  | (.ok _csr, s2, tr1) =>
    match clientAuto env s2 with
    | (.error _, sE, tr2) => (.error (), sE, acq ++ tr1 ++ tr2)
    | (.ok result, s3, tr2) =>
      if env.writeCertOk then
        let s4 := { s3 with certFile := some result }
        let s5 := { s4 with ssl := { cert := some (env.splitPemChain result),
                                     privateKey := s4.sslKeyVar } }
        let s6 := { s5 with mutexHeld := false }
        (.ok (), s6,
          acq ++ tr1 ++ tr2 ++
            [(.persistCertificate, s4), (.installActiveTls, s5), (.releaseGuard, s6)])
      else
        (.error (), s3, acq ++ tr1 ++ tr2)

/-- `renew`: outcome and final state. -/
def renewA (env : EnvA) (s : StateA) : Except Unit Unit × StateA :=
  ((renewASteps env s).1, (renewASteps env s).2.1)

/-- The states observable during a `renew` call: the pre-call state and the
state after each event. -/
def renewATrace (env : EnvA) (s : StateA) : List StateA :=
  s :: (renewASteps env s).2.2.map Prod.snd

/-- The events of a `renew` call, in order. -/
def renewAEvents (env : EnvA) (s : StateA) : List AcmeEvent :=
  (renewASteps env s).2.2.map Prod.fst

/-- A renewal invocation can enter its critical section only when the
mutex is free (`renewMutex.acquire()` blocks otherwise). -/
def canAcquire (s : StateA) : Bool :=
  !s.mutexHeld

/-- Outcomes of the external calls variant A's `plugin` startup awaits. -/
structure LoadEnvA where
  /-- reading `ssl.cert` (line 37) resolves (vs. rejects into the catch). -/
  certReadOk : Bool
  /-- reading `ssl.key` (line 41) resolves. -/
  keyReadOk : Bool
  /-- `acme.crypto.splitPemChain`. -/
  splitPemChain : String → List String
  /-- `acme.crypto.createPrivateKey()` (line 51): the fresh account key. -/
  freshAccountKey : String

/-- The startup load of `plugin` (lines 35-55): inside one `try`, read the
certificate file if it exists and publish its split chain to
`api.ssl.cert`, then read the key file if it exists and publish it to
`api.ssl.privateKey`; the `catch` clears only the `sslCert` / `sslKey`
module bindings (lines 45-48), not what was already published. Then a new
ACME client is built around a freshly created account key (lines 50-55). -/
def pluginLoadA (env : LoadEnvA) (s : StateA) : StateA :=
  let afterTry :=
    match s.certFile with
    | some c =>
      if env.certReadOk then
        let s1 := { s with sslCertVar := some c,
                           ssl := { s.ssl with cert := some (env.splitPemChain c) } }
        match s1.keyFile with
        | some k =>
          if env.keyReadOk then
            { s1 with sslKeyVar := some k,
                      ssl := { s1.ssl with privateKey := some k } }
          else
            { s1 with sslCertVar := none, sslKeyVar := none }
        | none => s1
      else
        { s with sslCertVar := none, sslKeyVar := none }
    | none =>
      match s.keyFile with
      | some k =>
        if env.keyReadOk then
          { s with sslKeyVar := some k,
                    ssl := { s.ssl with privateKey := some k } }
        else
          { s with sslCertVar := none, sslKeyVar := none }
      | none => s
  { afterTry with clientAccountKey := some env.freshAccountKey }

/-- What a `check` call (lines 80-115) does: return without renewing,
tail-call `renew`, or let a rejection of `readCertificateInfo` propagate
out. -/
inductive CheckResult where
  | noRenew
  | renewCalled
  | errorRaised
deriving DecidableEq, Repr

/-- `check` (lines 80-115): absent `sslCert` or `sslKey` renews at once
(82); otherwise the certificate is parsed by the external
`acme.forge.readCertificateInfo` (90) — whose rejection propagates out of
`check`, nothing catches it — and the `dateValid` / `domainValid` logic
decides (95-114). `parse` is the external parser, `none` modelling a
rejection on unparseable input. -/
def checkADecision (parse : String → Option CertInfo) (configDomain : String)
    (stagingConfig : Bool) (s : StateA) : CheckResult :=
  match s.sslCertVar, s.sslKeyVar with
  | some certPem, some _ =>
    match parse certPem with
    | none => .errorRaised
    | some info =>
      if dateValid info && domainValid info configDomain stagingConfig then
        .noRenew
      else
        .renewCalled
  | _, _ => .renewCalled

/-! ## Variant B: plugin `letsencrypt-ssl` (seed-addressed remote backend)

Lines 171-346 of the source: `check` / `isSslValid` reuse the evaluator
logic above; `createOrRenewSSl` loads or creates the persisted ACME
account key, generates a key and CSR, runs the order flow with
router-based challenge callbacks, and installs and saves the result. -/

/-- Line 183: the fixed logical path of the persisted account key. -/
def FILE_ACCOUNT_KEY_NAME : String := "/lumeweb/relay/account.key"

/-- The mutable state of variant B. -/
structure StateB where
  /-- the independent small files, logical name to content; backs
  `openIndependentFileSmall` / `createIndependentFileSmall`. -/
  files : List (String × String)
  /-- the host's active TLS slot, set by `api.ssl.set(cert, key)`. -/
  activeTls : Option (String × String)
  /-- the TLS material persisted by `api.ssl.save()`. -/
  savedTls : Option (String × String)
  /-- the host's HTTP router (`api.appRouter`): path and response body of
  every registered route. -/
  router : List (String × String)
deriving DecidableEq, Repr

/-- Look a logical name up among the independent small files. -/
def findFile : List (String × String) → String → Option String
  | [], _ => none
  | (n, d) :: t, name => if n == name then some d else findFile t name

/-- `getSslFile` (lines 331-344): open the named independent file; an error
from `openIndependentFileSmall` is swallowed and reported as absence. -/
def getSslFile (s : StateB) (name : String) : Option String :=
  findFile s.files name

/-- `challengeCreateFn` of variant B (lines 302-311): register one route
for the token on the host's router. -/
def challengeCreateFnB (token keyAuthorization : String)
    (router : List (String × String)) : List (String × String) :=
  router ++ [("/.well-known/acme-challenge/" ++ token, keyAuthorization)]

/-- `challengeRemoveFn` of variant B (lines 312-314):
`api.appRouter.reset()`. -/
def challengeRemoveFnB (_router : List (String × String)) :
    List (String × String) :=
  []

/-- Outcomes of the external calls a variant B renewal awaits. -/
structure EnvB where
  /-- `acme.forge.createPrivateKey()` (line 278): the fresh account key. -/
  freshAccountKey : String
  /-- `createIndependentFileSmall` (lines 279-283) succeeds; its rejection
  is uncaught. -/
  accountKeyWriteOk : Bool
  /-- result of `acme.forge.createCsr` (lines 293-295): certificate key
  and CSR. -/
  csrResult : Option (String × String)
  /-- the token / key-authorization pair presented to the challenge
  callbacks during `auto`, if the flow reaches a challenge. -/
  challenge : Option (String × String)
  /-- result of `acmeClient.auto` (lines 299-316): the certificate. -/
  autoResult : Option String
  /-- `api.ssl.save()` (line 324) succeeds; its rejection is uncaught. -/
  sslSaveOk : Bool

/-- How a `createOrRenewSSl` call ends. -/
inductive OutcomeB where
  | ok
  /-- a rejected promise propagated out of `createOrRenewSSl`. -/
  | err
  /-- `process.exit(1)` (line 320). -/
  | exited
deriving DecidableEq, Repr

/-- Lines 271-284 of `createOrRenewSSl`: load the persisted account key
via `getSslFile`, or create a fresh one and persist it with
`createIndependentFileSmall`. Returns the key the `acme.Client` is then
built with (lines 286-291), the state, and the events; `none` models the
uncaught rejection of the persisting write. -/
def ensureAccountKey (env : EnvB) (s : StateB) :
    Option (String × StateB × List (AcmeEvent × StateB)) :=
  match getSslFile s FILE_ACCOUNT_KEY_NAME with
  | some k => some (k, s, [])
  | none =>
    if env.accountKeyWriteOk then
      let s1 := { s with files := s.files ++ [(FILE_ACCOUNT_KEY_NAME, env.freshAccountKey)] }
      some (env.freshAccountKey, s1, [(.persistAccountKey, s1)])
    else
      none

/-- `createOrRenewSSl` (lines 260-325), statement by statement: obtain the
account key (271-284), generate the certificate key and CSR (293-295),
run `acmeClient.auto` inside the `try` (298-317) — the callbacks register
one router route and then reset the whole router; a rejection of `auto` is
caught and answered with `process.exit(1)` (318-321) — then
`api.ssl.set(cert, certificateKey)` (323) and `api.ssl.save()` (324).
Rejections outside the `try` propagate out. -/
def createOrRenewSSlSteps (env : EnvB) (s : StateB) :
    OutcomeB × StateB × List (AcmeEvent × StateB) :=
  match ensureAccountKey env s with
  | none => (.err, s, [])
  | some (_accountKey, s1, tr0) =>
    match env.csrResult with
    | none => (.err, s1, tr0)
    | some (certificateKey, _csr) =>
      let contact := [(AcmeEvent.contactCA, s1)]
      let (s2, tr1) : StateB × List (AcmeEvent × StateB) :=
        match env.challenge with
        | none => (s1, tr0 ++ contact)
        | some (token, keyAuth) =>
          let sReg := { s1 with router := challengeCreateFnB token keyAuth s1.router }
          let sRst := { sReg with router := challengeRemoveFnB sReg.router }
          (sRst, tr0 ++ contact ++ [(.registerChallenge, sReg), (.unregisterChallenge, sRst)])
      match env.autoResult with
      | none => (.exited, s2, tr1 ++ [(.exitProcess, s2)])
      | some cert =>
        let s3 := { s2 with activeTls := some (cert, certificateKey) }
        if env.sslSaveOk then
          let s4 := { s3 with savedTls := s3.activeTls }
          (.ok, s4, tr1 ++ [(.setActiveTls, s3), (.saveActiveTls, s4)])
        else
          (.err, s3, tr1 ++ [(.setActiveTls, s3)])

/-- `createOrRenewSSl`: outcome and final state. -/
def createOrRenewSSl (env : EnvB) (s : StateB) : OutcomeB × StateB :=
  ((createOrRenewSSlSteps env s).1, (createOrRenewSSlSteps env s).2.1)

/-- The events of a `createOrRenewSSl` call, in order. -/
def createOrRenewSSlEvents (env : EnvB) (s : StateB) : List AcmeEvent :=
  (createOrRenewSSlSteps env s).2.2.map Prod.fst

/-! ## The options passed to the ACME client's `auto` order flow -/

/-- The generic options of `client.auto` the claims speak about. -/
structure AutoOptions where
  termsOfServiceAgreed : Bool
  /-- the `challengePriority` restriction; absent when the call does not
  pass one (the library then applies its own default). -/
  challengePriority : Option (List String)
deriving DecidableEq, Repr

/-- The options object variant A's `renew` passes to `client.auto`
(lines 119-138): the two challenge callbacks, the CSR,
`termsOfServiceAgreed: true` — and no `challengePriority`. -/
def renewAutoOptions : AutoOptions :=
  { termsOfServiceAgreed := true, challengePriority := none }

/-- The options object variant B's `createOrRenewSSl` passes to
`acmeClient.auto` (lines 299-316): CSR, `termsOfServiceAgreed: true`, the
two callbacks, and `challengePriority: ["http-01"]`. -/
def createOrRenewAutoOptions : AutoOptions :=
  { termsOfServiceAgreed := true, challengePriority := some ["http-01"] }

/-- Equality of `Except` values is decidable when it is on both sides;
used to evaluate renewal outcomes in the concrete runs below. -/
instance {ε α : Type} [DecidableEq ε] [DecidableEq α] :
    DecidableEq (Except ε α) := fun x y =>
  match x, y with
  | .ok a, .ok b =>
    if h : a = b then isTrue (by rw [h])
    else isFalse (fun hc => h (by injection hc))
  | .error a, .error b =>
    if h : a = b then isTrue (by rw [h])
    else isFalse (fun hc => h (by injection hc))
  | .ok _, .error _ => isFalse (fun hc => Except.noConfusion hc)
  | .error _, .ok _ => isFalse (fun hc => Except.noConfusion hc)

/-! ## Concrete runs used by the evaluations below -/

/-- A variant A renewal environment in which every external call
succeeds. -/
def envAok : EnvA :=
  { splitPemChain := fun c => [c], createCsrResult := some ("NEWKEY", "CSR"),
    writeKeyOk := true, challenge := some ("tok", "keyauth"),
    autoResult := some "NEWCERT", writeCertOk := true }

/-- The same environment with the ACME order flow rejecting. -/
def envAautoFail : EnvA :=
  { envAok with autoResult := none }

/-- A variant A startup environment whose reads succeed. -/
def loadEnvA1 : LoadEnvA :=
  { certReadOk := true, keyReadOk := true, splitPemChain := fun c => [c],
    freshAccountKey := "ACCKEY-RUN1" }

/-- The startup environment of a second deployment of the same
installation: `acme.crypto.createPrivateKey()` yields another key. -/
def loadEnvA2 : LoadEnvA :=
  { loadEnvA1 with freshAccountKey := "ACCKEY-RUN2" }

/-- A variant B renewal environment in which every external call
succeeds. -/
def envBok : EnvB :=
  { freshAccountKey := "ACCKEY", accountKeyWriteOk := true,
    csrResult := some ("NEWKEY", "CSR"), challenge := some ("tok", "keyauth"),
    autoResult := some "NEWCERT", sslSaveOk := true }

/-- The same environment with `api.ssl.save()` rejecting. -/
def envBsaveFail : EnvB :=
  { envBok with sslSaveOk := false }

/-- A variant B state holding a persisted account key, a previously issued
active certificate, and one unrelated route on the host router. -/
def stateBwithOldCert : StateB :=
  { files := [(FILE_ACCOUNT_KEY_NAME, "OLDACC")],
    activeTls := some ("OLDCERT", "OLDKEY"),
    savedTls := some ("OLDCERT", "OLDKEY"),
    router := [("/health", "ok")] }

/-! ## C1: guard release on exit -/

/-- C1: evaluating `renew` on a run whose ACME exchange rejects: the call
exits with the error, yet `renewMutex` is still held and no later renewal
invocation can acquire the guard — `renewMutex.release()` (line 148) sits
after the awaited calls with no `try`/`finally`, so it is reached only on
the success path (where the guard is indeed released). -/
theorem renew_failure_leaves_guard_held :
    (renewA envAautoFail initStateA).1 = .error () ∧
    (renewA envAautoFail initStateA).2.mutexHeld = true ∧
    canAcquire (renewA envAautoFail initStateA).2 = false ∧
    (renewA envAok initStateA).2.mutexHeld = false := by
  decide

/-! ## C10: the remote challenge-remove callback -/

/-- C10: variant B's challenge-remove callback resets the host's entire
HTTP router — whatever routes were registered, none survive it; in
particular a successful `createOrRenewSSl` run leaves a router on which
even the pre-existing unrelated route is gone. -/
theorem challengeRemoveFnB_resets_entire_router :
    (∀ router : List (String × String), challengeRemoveFnB router = []) ∧
    (createOrRenewSSl envBok stateBwithOldCert).2.router = [] := by
  exact ⟨fun _ => rfl, by decide⟩

/-! ## C8: the options passed to the order flow -/

/-- C8 fails on variant A: the options `renew` passes to `client.auto`
carry no `challengePriority` at all, in particular not the HTTP-01-only
restriction the claim requires of every invocation. -/
theorem renewAutoOptions_lacks_http01_restriction :
    renewAutoOptions.challengePriority = none ∧
    renewAutoOptions.challengePriority ≠ some ["http-01"] := by
  decide

/-- C8 amended: both variants set `termsOfServiceAgreed = true`; the
remote variant restricts the flow to the HTTP-01 challenge type, while the
local variant passes no challenge-type restriction. -/
theorem auto_options_tos_and_priority :
    renewAutoOptions.termsOfServiceAgreed = true ∧
    createOrRenewAutoOptions.termsOfServiceAgreed = true ∧
    createOrRenewAutoOptions.challengePriority = some ["http-01"] ∧
    renewAutoOptions.challengePriority = none := by
  decide

/-! ## C7: parse failures versus absent material -/

/-- The external certificate parser on input it cannot parse: the promise
rejects. -/
def parseNone : String → Option CertInfo := fun _ => none

/-- A variant A state holding stored (but corrupt) certificate material. -/
def stateAcertPresent : StateA :=
  { initStateA with sslCertVar := some "CORRUPT", sslKeyVar := some "KEY" }

/-- C7 fails: with a stored but unparseable certificate `check` lets the
parser's rejection escape (nothing catches `readCertificateInfo`), which
is not the decision that absent material produces. -/
theorem checkA_corrupt_cert_raises :
    checkADecision parseNone "relay.example.com" false stateAcertPresent =
      .errorRaised ∧
    checkADecision parseNone "relay.example.com" false
        { stateAcertPresent with sslCertVar := none } = .renewCalled ∧
    CheckResult.errorRaised ≠ CheckResult.renewCalled := by
  decide

/-- C7 amended: absent certificate or key material makes `check` renew at
once — and a startup read failure is treated that way, since the `catch`
clears both module bindings — but a present certificate that fails to
parse makes the evaluation propagate the parser's rejection instead of
producing a decision. -/
theorem checkA_absent_renews_unparseable_raises
    (parse : String → Option CertInfo) (configDomain : String)
    (stagingConfig : Bool) (s : StateA) (env : LoadEnvA) :
    (s.sslCertVar = none →
      checkADecision parse configDomain stagingConfig s = .renewCalled) ∧
    (s.sslKeyVar = none →
      checkADecision parse configDomain stagingConfig s = .renewCalled) ∧
    (∀ c, s.certFile = some c → env.certReadOk = false →
      (pluginLoadA env s).sslCertVar = none ∧
      checkADecision parse configDomain stagingConfig (pluginLoadA env s) =
        .renewCalled) ∧
    (∀ certPem k, s.sslCertVar = some certPem → s.sslKeyVar = some k →
      parse certPem = none →
      checkADecision parse configDomain stagingConfig s = .errorRaised) := by
  refine ⟨?_, ?_, ?_, ?_⟩
  · intro h
    simp [checkADecision, h]
  · intro h
    rcases hc : s.sslCertVar with _ | c <;> simp [checkADecision, hc, h]
  · intro c hc hread
    have : pluginLoadA env s =
        { s with sslCertVar := none, sslKeyVar := none,
                 clientAccountKey := some env.freshAccountKey } := by
      simp [pluginLoadA, hc, hread]
    rw [this]
    simp [checkADecision]
  · intro certPem k hc hk hparse
    simp [checkADecision, hc, hk, hparse]

/-! ## C4: the ACME account key lifecycle -/

/-- C4 fails on variant A: `plugin` builds its ACME client around a
freshly created account key on every startup and never persists it — two
deployments of the same installation authenticate with different account
keys, and no file receives the key. -/
theorem pluginLoadA_fresh_account_key_each_start :
    (pluginLoadA loadEnvA1 initStateA).clientAccountKey = some "ACCKEY-RUN1" ∧
    (pluginLoadA loadEnvA2 initStateA).clientAccountKey = some "ACCKEY-RUN2" ∧
    (pluginLoadA loadEnvA1 initStateA).clientAccountKey ≠
      (pluginLoadA loadEnvA2 initStateA).clientAccountKey ∧
    (pluginLoadA loadEnvA1 initStateA).keyFile = none ∧
    (pluginLoadA loadEnvA1 initStateA).certFile = none := by
  decide

/-- Appending a new name at the end of the file list is invisible to
lookups of other names and found by lookups of that name. -/
theorem findFile_append_self (l : List (String × String)) (n k : String)
    (h : findFile l n = none) : findFile (l ++ [(n, k)]) n = some k := by
  induction l with
  | nil => simp [findFile]
  | cons p t ih =>
    rcases p with ⟨pn, pd⟩
    by_cases hpn : (pn == n) = true
    · simp [findFile, hpn] at h
    · simp [findFile, hpn] at h ⊢
      exact ih h

/-- C4 amended: in the remote variant the account key is loaded from the
Material Store when present; when absent it is created once, persisted
under its fixed logical name, and the next renewal invocation reuses the
persisted key without creating another. In the local variant every plugin
startup builds the client around the freshly created key and persists
nothing — the key is reused only by the renewals of that one process. -/
theorem account_key_lifecycle (env env2 : EnvB) (s : StateB)
    (envA : LoadEnvA) (sA : StateA) :
    (∀ k, getSslFile s FILE_ACCOUNT_KEY_NAME = some k →
      ensureAccountKey env s = some (k, s, [])) ∧
    (getSslFile s FILE_ACCOUNT_KEY_NAME = none → env.accountKeyWriteOk = true →
      ∃ s1, ensureAccountKey env s =
          some (env.freshAccountKey, s1, [(.persistAccountKey, s1)]) ∧
        ensureAccountKey env2 s1 = some (env.freshAccountKey, s1, [])) ∧
    ((pluginLoadA envA sA).clientAccountKey = some envA.freshAccountKey ∧
      (pluginLoadA envA sA).keyFile = sA.keyFile ∧
      (pluginLoadA envA sA).certFile = sA.certFile) := by
  refine ⟨?_, ?_, ?_, ?_, ?_⟩
  · intro k h
    simp [ensureAccountKey, h]
  · intro h hw
    refine ⟨{ s with files := s.files ++ [(FILE_ACCOUNT_KEY_NAME, env.freshAccountKey)] },
      ?_, ?_⟩
    · simp [ensureAccountKey, h, hw]
    · have : getSslFile
          { s with files := s.files ++ [(FILE_ACCOUNT_KEY_NAME, env.freshAccountKey)] }
          FILE_ACCOUNT_KEY_NAME = some env.freshAccountKey :=
        findFile_append_self s.files FILE_ACCOUNT_KEY_NAME env.freshAccountKey h
      simp [ensureAccountKey, this]
  · unfold pluginLoadA
    rcases hcf : sA.certFile with _ | c <;>
      rcases hkf : sA.keyFile with _ | k <;>
      cases hr : envA.certReadOk <;> cases hk : envA.keyReadOk <;>
      simp [hcf, hkf, hr, hk]
  · unfold pluginLoadA
    rcases hcf : sA.certFile with _ | c <;>
      rcases hkf : sA.keyFile with _ | k <;>
      cases hr : envA.certReadOk <;> cases hk : envA.keyReadOk <;>
      simp [hcf, hkf, hr, hk]
  · unfold pluginLoadA
    rcases hcf : sA.certFile with _ | c <;>
      rcases hkf : sA.keyFile with _ | k <;>
      cases hr : envA.certReadOk <;> cases hk : envA.keyReadOk <;>
      simp [hcf, hkf, hr, hk]

/-! ## C2: a failed renewal and the active TLS state -/

/-- C2 fails at the persistence step of the remote variant: a renewal
whose ACME exchange succeeds but whose `api.ssl.save()` rejects is a
failed invocation, yet `ActiveTlsState` was already replaced by
`api.ssl.set` (line 323) — after the call it no longer equals the
pre-call pair. -/
theorem createOrRenewSSl_save_failure_replaces_state :
    (createOrRenewSSl envBsaveFail stateBwithOldCert).1 = .err ∧
    (createOrRenewSSl envBsaveFail stateBwithOldCert).2.activeTls =
      some ("NEWCERT", "NEWKEY") ∧
    (createOrRenewSSl envBsaveFail stateBwithOldCert).2.activeTls ≠
      stateBwithOldCert.activeTls := by
  decide

/-- C2 amended: a renewal that fails before the installation step leaves
`ActiveTlsState` byte-for-byte unchanged — every error exit of the local
variant's `renew`, the remote variant's `process.exit` on a failed
exchange, and every error exit of the remote variant other than a failed
final save; only the remote variant's save failure occurs after the state
was already replaced. -/
theorem renewal_failure_frame :
    (∀ env s, (renewA env s).1 = .error () → (renewA env s).2.ssl = s.ssl) ∧
    (∀ env s, (createOrRenewSSl env s).1 = .exited →
      (createOrRenewSSl env s).2.activeTls = s.activeTls) ∧
    (∀ env s, env.sslSaveOk = true → (createOrRenewSSl env s).1 = .err →
      (createOrRenewSSl env s).2.activeTls = s.activeTls) := by
  refine ⟨?_, ?_, ?_⟩
  · intro env s h
    rcases env with ⟨split, csrres, wk, chal, auto, wc⟩
    rcases csrres with _ | ⟨key, csr⟩ <;>
      rcases chal with _ | ⟨tok, ka⟩ <;>
      rcases auto with _ | cert <;>
      cases wk <;> cases wc <;>
      simp_all [renewA, renewASteps, generateCsr, clientAuto]
  · intro env s h
    rcases env with ⟨fk, akw, csrres, chal, auto, sv⟩
    rcases hak : getSslFile s FILE_ACCOUNT_KEY_NAME with _ | k <;>
      rcases csrres with _ | ⟨ck, csr⟩ <;>
      rcases chal with _ | ⟨tok, ka⟩ <;>
      rcases auto with _ | cert <;>
      cases akw <;> cases sv <;>
      simp_all [createOrRenewSSl, createOrRenewSSlSteps, ensureAccountKey, hak]
  · intro env s hsv h
    rcases env with ⟨fk, akw, csrres, chal, auto, sv⟩
    rcases hak : getSslFile s FILE_ACCOUNT_KEY_NAME with _ | k <;>
      rcases csrres with _ | ⟨ck, csr⟩ <;>
      rcases chal with _ | ⟨tok, ka⟩ <;>
      rcases auto with _ | cert <;>
      cases akw <;> cases sv <;>
      simp_all [createOrRenewSSl, createOrRenewSSlSteps, ensureAccountKey, hak]

/-! ## C3: no half-written active TLS state -/

/-- A variant A state whose configuration directory holds a certificate
file but no key file. -/
def stateAcertFileOnly : StateA :=
  { initStateA with certFile := some "OLDCERTPEM" }

/-- C3 fails at startup: when only the certificate file is present, the
`plugin` load (lines 36-44) publishes `api.ssl.cert` and never sets
`api.ssl.privateKey`, so a reader observes a certificate paired with no
key — the published state is neither a complete pair nor absent. -/
theorem pluginLoadA_publishes_cert_without_key :
    (pluginLoadA loadEnvA1 stateAcertFileOnly).ssl.cert =
      some ["OLDCERTPEM"] ∧
    (pluginLoadA loadEnvA1 stateAcertFileOnly).ssl.privateKey = none := by
  decide

/-- C3 amended: at every point observable during a `renew` call (the
states at its event boundaries, consecutive synchronous statements being
one event-loop turn), the active TLS slot is either exactly its pre-call
value or the complete newly installed certificate-and-key pair — the
install block of lines 142-146 is published in a single turn. The
startup load, by contrast, can publish a certificate without a key
(previous counterexample). -/
theorem renewATrace_ssl_complete (env : EnvA) (s : StateA) (t : StateA)
    (ht : t ∈ renewATrace env s) :
    t.ssl = s.ssl ∨ ∃ chain key, t.ssl = ⟨some chain, some key⟩ := by
  rcases env with ⟨split, csrres, wk, chal, auto, wc⟩
  rcases csrres with _ | ⟨key, csr⟩ <;>
    rcases chal with _ | ⟨tok, ka⟩ <;>
    rcases auto with _ | cert <;>
    cases wk <;> cases wc <;>
    simp_all [renewATrace, renewASteps, generateCsr, clientAuto] <;>
    aesop

/-- Witness for the C3 amended theorem: the final state of a fully
successful concrete renewal is observable in its trace, and its slot is
the pre-call value or a complete pair. -/
theorem renewATrace_ssl_complete_witness :
    (renewA envAok initStateA).2.ssl = initStateA.ssl ∨
    ∃ chain key, (renewA envAok initStateA).2.ssl = ⟨some chain, some key⟩ :=
  renewATrace_ssl_complete envAok initStateA (renewA envAok initStateA).2
    (by decide)

/-! ## C9: key persistence versus contacting the CA -/

/-- C9 fails on the remote variant: in a fully successful run the order
flow is contacted first, and the generated certificate key reaches
persistence only through `api.ssl.save()` afterwards — no key-persisting
event precedes `contactCA`. -/
theorem createOrRenewSSl_contacts_ca_before_key_persist :
    createOrRenewSSlEvents envBok stateBwithOldCert =
      [.contactCA, .registerChallenge, .unregisterChallenge,
        .setActiveTls, .saveActiveTls] ∧
    (createOrRenewSSlEvents envBok stateBwithOldCert).head? =
      some .contactCA ∧
    AcmeEvent.persistPrivateKey ∉
      createOrRenewSSlEvents envBok stateBwithOldCert := by
  decide

/-- C9 amended: the local variant's `renew` writes the new private key to
disk strictly before `client.auto` starts the order flow; the remote
variant never persists the certificate key before contacting the CA — its
only key persistence, `api.ssl.save()`, happens after the flow. -/
theorem key_persist_before_contact :
    (∀ env s, AcmeEvent.contactCA ∈ renewAEvents env s →
      AcmeEvent.persistPrivateKey ∈
        (renewAEvents env s).takeWhile (fun e => e != AcmeEvent.contactCA)) ∧
    (∀ env s, AcmeEvent.persistPrivateKey ∉ createOrRenewSSlEvents env s) ∧
    (∀ env s, AcmeEvent.saveActiveTls ∉
      (createOrRenewSSlEvents env s).takeWhile
        (fun e => e != AcmeEvent.contactCA)) := by
  refine ⟨?_, ?_, ?_⟩
  · intro env s h
    rcases env with ⟨split, csrres, wk, chal, auto, wc⟩
    rcases csrres with _ | ⟨key, csr⟩ <;>
      rcases chal with _ | ⟨tok, ka⟩ <;>
      rcases auto with _ | cert <;>
      cases wk <;> cases wc <;>
      simp_all [renewAEvents, renewASteps, generateCsr, clientAuto]
  · intro env s
    rcases env with ⟨fk, akw, csrres, chal, auto, sv⟩
    rcases hak : getSslFile s FILE_ACCOUNT_KEY_NAME with _ | k <;>
      rcases csrres with _ | ⟨ck, csr⟩ <;>
      rcases chal with _ | ⟨tok, ka⟩ <;>
      rcases auto with _ | cert <;>
      cases akw <;> cases sv <;>
      simp_all [createOrRenewSSlEvents, createOrRenewSSlSteps, ensureAccountKey, hak]
  · intro env s
    rcases env with ⟨fk, akw, csrres, chal, auto, sv⟩
    rcases hak : getSslFile s FILE_ACCOUNT_KEY_NAME with _ | k <;>
      rcases csrres with _ | ⟨ck, csr⟩ <;>
      rcases chal with _ | ⟨tok, ka⟩ <;>
      rcases auto with _ | cert <;>
      cases akw <;> cases sv <;>
      simp_all [createOrRenewSSlEvents, createOrRenewSSlSteps, ensureAccountKey, hak]

/-- Witness for the C9 amended theorem: in a concrete fully successful
local-variant run the key-file write appears among the events before the
CA is contacted. -/
theorem key_persist_before_contact_witness :
    AcmeEvent.persistPrivateKey ∈
      (renewAEvents envAok initStateA).takeWhile
        (fun e => e != AcmeEvent.contactCA) :=
  key_persist_before_contact.1 envAok initStateA (by decide)

end LetsEncrypt
